import Mathlib

/-!
Shallow embedding of the ledger core of the `hw1-327` banking program
(`AccountClass.py`, `TransactionClass.py`, `CustomException.py`,
`AccountType.py`, `BankClass.py`).

Modelling conventions:
* Python `Decimal` amounts are modelled as exact rationals (`ℚ`). Constants
  built from binary floats (`Decimal(0.08)`, `Decimal(0.33)`, `Decimal(-5.75)`)
  are embedded as the exact rational value of the corresponding IEEE-754
  double, which is what Python's `Decimal(float)` constructor produces.
* `datetime.date` is modelled as a year/month/day triple with the
  lexicographic order that Python uses to compare dates; `timedelta`
  subtraction inside `last_day_of_month` is evaluated by calendar rules.
* Python exceptions are modelled by operations returning
  `Option Err × State`: the second component is the state of the object at
  the moment the exception (if any) escapes, mirroring the source's mutation
  order (all checks in the source run before any mutation).
-/

/-- Calendar date, mirroring `datetime.date` (year, month, day).
Python compares dates lexicographically. -/
structure Date where
  year : ℕ
  month : ℕ
  day : ℕ
deriving DecidableEq, Repr

/-- Strict comparison of dates: Python's `<` on `datetime.date`
(lexicographic on (year, month, day)). -/
def Date.lt (a b : Date) : Bool :=
  decide (a.year < b.year ∨ (a.year = b.year ∧
    (a.month < b.month ∨ (a.month = b.month ∧ a.day < b.day))))

/-- A structurally valid calendar date as `datetime.date` guarantees:
month in 1..12 and day in 1..days-in-month. -/
def Date.isLeapYear (y : ℕ) : Bool :=
  decide (y % 4 = 0 ∧ (y % 100 ≠ 0 ∨ y % 400 = 0))

/-- Number of days in month `m` of year `y` (Gregorian calendar, as
implemented by Python's `datetime`). -/
def Date.daysInMonth (y m : ℕ) : ℕ :=
  if m = 2 then (if Date.isLeapYear y then 29 else 28)
  else if m = 4 ∨ m = 6 ∨ m = 9 ∨ m = 11 then 30
  else 31

/-- Validity predicate satisfied by every Python `datetime.date`. -/
def Date.Valid (d : Date) : Prop :=
  1 ≤ d.month ∧ d.month ≤ 12 ∧ 1 ≤ d.day ∧ d.day ≤ Date.daysInMonth d.year d.month

instance (d : Date) : Decidable (Date.Valid d) := by
  unfold Date.Valid; infer_instance

/-- `TransactionType` enum from `TransactionClass.py`. -/
inductive TransactionType where
  | DEPOSIT
  | WITHDRAWAL
  | INTEREST
  | FEE
deriving DecidableEq, Repr

/-- The `error_type` field of `TransactionSequenceError`
("sequence" for ordering errors, "interest" for duplicate monthly close). -/
inductive SeqErrType where
  | sequence
  | interest
deriving DecidableEq, Repr

/-- The `limit_type` field of `TransactionLimitError`. -/
inductive LimitType where
  | daily
  | monthly
deriving DecidableEq, Repr

/-- The messages carried by the `AttributeError`s the Bank layer raises:
`noneTypeAccountNumber` stands for Python's implicit
"NoneType object has no attribute account_number" raised by
`Bank.add_transaction`'s logging line when nothing is selected;
`requiresSelectAccount` stands for the explicit
"This command requires that you first select an account.";
`invalidAccountNumber` stands for "Invalid account number.". -/
inductive AttrMsg where
  | noneTypeAccountNumber
  | requiresSelectAccount
  | invalidAccountNumber
deriving DecidableEq, Repr

/-- The exceptions of `CustomException.py` plus the
`AttributeError`s raised in `BankClass.py`. -/
inductive Err where
  | overdraw
  | transactionSequence (latest_date : Date) (error_type : SeqErrType)
  | transactionLimit (limit_type : LimitType)
  | attributeError (message : AttrMsg)
deriving DecidableEq, Repr

/-- `Transaction` record from `TransactionClass.py`. -/
structure Transaction where
  account_number : ℕ
  date : Date
  amount : ℚ
  transaction_type : TransactionType
deriving DecidableEq, Repr

namespace Transaction

/-- `Transaction.get_last_transaction`: `max(transactions, key=lambda t: t.date,
default=None)`. Python's `max` keeps the first element among ties. -/
def get_last_transaction (ts : List Transaction) : Option Transaction :=
  match ts with
  | [] => none
  | t :: rest => some (rest.foldl (fun acc u => if Date.lt acc.date u.date then u else acc) t)

/-- `Transaction.last_day_of_month`: Python computes
`date(y + m // 12, m % 12 + 1, 1) - timedelta(days=1)`; the subtraction of
one day from the first of a month yields the last day of the preceding
month, evaluated here by calendar rules. -/
def last_day_of_month (d : Date) : Date :=
  let ny := d.year + d.month / 12
  let nm := d.month % 12 + 1
  if nm = 1 then ⟨ny - 1, 12, 31⟩
  else ⟨ny, nm - 1, Date.daysInMonth ny (nm - 1)⟩

/-- `Transaction.validate_transaction`: with a non-empty history, raise
`TransactionSequenceError(last.date, "sequence")` when the most recent
transaction is dated strictly after the candidate. -/
def validate_transaction (ts : List Transaction) (nt : Transaction) : Option Err :=
  match get_last_transaction ts with
  | none => none
  | some last => if Date.lt nt.date last.date then some (.transactionSequence last.date .sequence) else none

end Transaction

/-- `AccountType` enum from `AccountType.py`. -/
inductive AccountType where
  | CHECKING
  | SAVINGS
deriving DecidableEq, Repr

/-- Account state: `_account_type`, `_account_number`, `_balance`,
`_transactions` from `AccountClass.py` (display name and ORM model are
presentation/persistence and carry no ledger state). -/
structure Account where
  account_type : AccountType
  account_number : ℕ
  balance : ℚ
  transactions : List Transaction
deriving DecidableEq, Repr

namespace Account

/-- `Account.INTEREST_RATES`: the source constructs `Decimal(0.08)` and
`Decimal(0.33)` from binary floats, so the embedded rates are the exact
rational values of the IEEE-754 doubles nearest 0.08 and 0.33. -/
def INTEREST_RATES : AccountType → ℚ
  | .CHECKING => 5764607523034235 / 72057594037927936
  | .SAVINGS => 5944751508129055 / 18014398509481984

/-- `Account._update_balance`: recompute the balance as the sum of all
transaction amounts. -/
def update_balance (a : Account) : Account :=
  { a with balance := (a.transactions.map (fun t => t.amount)).sum }

/-- `Account.add_transaction` (base class): validate the sequence rule,
then append the transaction and recompute the balance. The pair's second
component is the account state when an exception escapes. -/
def add_transaction (a : Account) (amount : ℚ) (date : Date)
    (transaction_type : TransactionType) : Option Err × Account :=
  let nt : Transaction := ⟨a.account_number, date, amount, transaction_type⟩
  match Transaction.validate_transaction a.transactions nt with
  | some e => (some e, a)
  | none => (none, Account.update_balance { a with transactions := a.transactions ++ [nt] })

end Account

namespace SavingsAccount

/-- `SavingsAccount.MAX_DAILY_TRANSACTIONS`. -/
def MAX_DAILY_TRANSACTIONS : ℕ := 2

/-- `SavingsAccount.MAX_MONTHLY_TRANSACTIONS`. -/
def MAX_MONTHLY_TRANSACTIONS : ℕ := 5

/-- `SavingsAccount._can_add_transaction`: daily and monthly counters
against the caps. -/
def can_add_transaction (a : Account) (date : Date) : Bool :=
  let daily_count := a.transactions.countP (fun t => decide (t.date = date))
  let monthly_count := a.transactions.countP
    (fun t => decide (t.date.month = date.month) && decide (t.date.year = date.year))
  decide (daily_count < MAX_DAILY_TRANSACTIONS) && decide (monthly_count < MAX_MONTHLY_TRANSACTIONS)

/-- `SavingsAccount.add_transaction`: overdraft check, then limit check
(daily message when the daily counter is at its cap, else monthly), then
the base-class behaviour. -/
def add_transaction (a : Account) (amount : ℚ) (date : Date)
    (transaction_type : TransactionType) (bypass_limit : Bool) : Option Err × Account :=
  if !bypass_limit && decide (a.balance + amount < 0) && decide (transaction_type ≠ .DEPOSIT) then
    (some .overdraw, a)
  else if !bypass_limit && !can_add_transaction a date then
    (some (.transactionLimit
      (if a.transactions.countP (fun t => decide (t.date = date)) ≥ MAX_DAILY_TRANSACTIONS
       then .daily else .monthly)), a)
  else
    Account.add_transaction a amount date transaction_type

end SavingsAccount

namespace CheckingAccount

/-- `CheckingAccount.MIN_BALANCE_FOR_FEE` (`Decimal(100)`, exact). -/
def MIN_BALANCE_FOR_FEE : ℚ := 100

/-- `CheckingAccount.OVERDRAFT_FEE` (`Decimal(-5.75)`; -5.75 is an exact
binary float, so the embedded value is exactly -23/4). -/
def OVERDRAFT_FEE : ℚ := -23 / 4

/-- `CheckingAccount.add_transaction`: overdraft check for non-deposits,
then the base-class behaviour. -/
def add_transaction (a : Account) (amount : ℚ) (date : Date)
    (transaction_type : TransactionType) (bypass_limit : Bool) : Option Err × Account :=
  if !bypass_limit && decide (a.balance + amount < 0) && decide (transaction_type ≠ .DEPOSIT) then
    (some .overdraw, a)
  else
    Account.add_transaction a amount date transaction_type

end CheckingAccount

namespace Account

/-- Dynamic dispatch of `self.add_transaction` on the account's runtime
class (`SavingsAccount` or `CheckingAccount`). -/
def dispatch_add_transaction (a : Account) (amount : ℚ) (date : Date)
    (transaction_type : TransactionType) (bypass_limit : Bool) : Option Err × Account :=
  match a.account_type with
  | .CHECKING => CheckingAccount.add_transaction a amount date transaction_type bypass_limit
  | .SAVINGS => SavingsAccount.add_transaction a amount date transaction_type bypass_limit

/-- The `fee_date` computed at the top of `Account.apply_interest_and_fees`:
last day of the month of the most recent transaction, or today's date for an
empty history. -/
def fee_date (a : Account) (today : Date) : Date :=
  match Transaction.get_last_transaction a.transactions with
  | none => today
  | some last => Transaction.last_day_of_month last.date

/-- `CheckingAccount._apply_account_fees` / the base-class no-op: for a
checking account whose balance is below `MIN_BALANCE_FOR_FEE`, post the
overdraft fee through the bypass path. -/
def apply_account_fees (a : Account) (d : Date) : Option Err × Account :=
  match a.account_type with
  | .SAVINGS => (none, a)
  | .CHECKING =>
    if decide (a.balance < CheckingAccount.MIN_BALANCE_FOR_FEE) then
      CheckingAccount.add_transaction a CheckingAccount.OVERDRAFT_FEE d .FEE true
    else (none, a)

/-- `Account.apply_interest_and_fees`: compute the fee date, reject a
duplicate monthly close (any Interest/Fee transaction whose date has the
same month number as the fee date), post interest through the bypass path,
run the fee hook, and recompute the balance. -/
def apply_interest_and_fees (a : Account) (today : Date) : Option Err × Account :=
  let interest_rate := INTEREST_RATES a.account_type
  let fd := fee_date a today
  if a.transactions.any (fun t =>
      (decide (t.transaction_type = .INTEREST) || decide (t.transaction_type = .FEE)) &&
      decide (t.date.month = fd.month)) then
    (some (.transactionSequence fd .interest), a)
  else
    let interest := a.balance * interest_rate / 100
    match dispatch_add_transaction a interest fd .INTEREST true with
    | (some e, a1) => (some e, a1)
    | (none, a1) =>
      match apply_account_fees a1 fd with
      | (some e, a2) => (some e, a2)
      | (none, a2) => (none, update_balance a2)

/-- A freshly opened account: `$0.00` balance and empty history. -/
def fresh (t : AccountType) (n : ℕ) : Account :=
  { account_type := t, account_number := n, balance := 0, transactions := [] }

end Account

/-- Bank state from `BankClass.py`: the account dictionary (keyed by
account number), the optional selection (a reference into the dictionary,
modelled by the selected key), and the account-number counter. -/
structure Bank where
  accounts : List (ℕ × Account)
  selected : Option ℕ
  num_accounts : ℕ
deriving DecidableEq, Repr

namespace Bank

/-- `Bank.get_selected_account`: dereference the selection. -/
def get_selected_account (b : Bank) : Option Account :=
  match b.selected with
  | none => none
  | some n => b.accounts.lookup n

/-- Write back the state of the selected account (in Python the selected
object is mutated in place and the dictionary holds the same object). -/
def set_selected_account (b : Bank) (acc : Account) : Bank :=
  match b.selected with
  | none => b
  | some n => { b with accounts := b.accounts.map (fun p => if p.1 = n then (n, acc) else p) }

/-- `Bank.add_transaction`: the logging f-string dereferences
`self._selected.account_number`, so with no selection the call dies with
Python's implicit `AttributeError` before anything else runs; otherwise the
kind is `WITHDRAWAL` when `amount < 0`, else `DEPOSIT`, and the call is
delegated to the selected account, re-raising its exceptions unchanged. -/
def add_transaction (b : Bank) (amount : ℚ) (date : Date) : Option Err × Bank :=
  match get_selected_account b with
  | none => (some (.attributeError .noneTypeAccountNumber), b)
  | some acc =>
    let transaction_type : TransactionType :=
      if decide (amount < 0) then .WITHDRAWAL else .DEPOSIT
    let r := Account.dispatch_add_transaction acc amount date transaction_type false
    (r.1, set_selected_account b r.2)

/-- `Bank.list_transactions`: with no selection, raise the explicit
"requires that you first select an account" `AttributeError`; otherwise
print the sorted transactions (presentation, no state change). -/
def list_transactions (b : Bank) : Option Err × Bank :=
  match get_selected_account b with
  | none => (some (.attributeError .requiresSelectAccount), b)
  | some _ => (none, b)

/-- `Bank.interest_and_fees`: with no selection, raise the explicit
"requires that you first select an account" `AttributeError`; otherwise
delegate to the selected account, re-raising its exceptions unchanged. -/
def interest_and_fees (b : Bank) (today : Date) : Option Err × Bank :=
  match get_selected_account b with
  | none => (some (.attributeError .requiresSelectAccount), b)
  | some acc =>
    let r := Account.apply_interest_and_fees acc today
    (r.1, set_selected_account b r.2)

end Bank

/-- A mutating account-level operation, for stating properties of
sequences of operations: a user-path `add_transaction` (dispatched on the
account's class, `bypass_limit=False`) or `apply_interest_and_fees`. -/
inductive AccountOp where
  | add (amount : ℚ) (date : Date) (transaction_type : TransactionType)
  | applyInterestAndFees (today : Date)
deriving DecidableEq, Repr

/-- Run one operation on an account. -/
def AccountOp.run (op : AccountOp) (a : Account) : Option Err × Account :=
  match op with
  | .add amount date ttype => Account.dispatch_add_transaction a amount date ttype false
  | .applyInterestAndFees today => Account.apply_interest_and_fees a today

/-- Run a sequence of operations, requiring every one to succeed
(`none` as soon as some operation raises). -/
def AccountOp.runAll (ops : List AccountOp) (a : Account) : Option Account :=
  match ops with
  | [] => some a
  | op :: rest =>
    match op.run a with
    | (some _, _) => none
    | (none, a1) => runAll rest a1

/-- The balance invariant: the stored balance is the exact sum of the
amounts of all transactions in the history. -/
def Account.BalanceInv (a : Account) : Prop :=
  a.balance = (a.transactions.map (fun t => t.amount)).sum

instance (a : Account) : Decidable (Account.BalanceInv a) := by
  unfold Account.BalanceInv; infer_instance

/-- Example: checking account holding an interest posting from March 2023
and a user deposit from March 2024. -/
def crossYearAccount : Account :=
  ⟨.CHECKING, 1, 201 / 2,
    [⟨1, ⟨2023, 3, 31⟩, 1 / 2, .INTEREST⟩, ⟨1, ⟨2024, 3, 15⟩, 100, .DEPOSIT⟩]⟩

/-- Example: checking account holding a single deposit of $100.00. -/
def deposit100Account : Account :=
  ⟨.CHECKING, 1, 100, [⟨1, ⟨2024, 3, 15⟩, 100, .DEPOSIT⟩]⟩

/-- Example: checking account holding a single deposit of $50.00. -/
def deposit50Account : Account :=
  ⟨.CHECKING, 1, 50, [⟨1, ⟨2024, 3, 10⟩, 50, .DEPOSIT⟩]⟩

/-- Example: checking account whose balance was driven negative by a fee
posting. -/
def negBalanceAccount : Account :=
  ⟨.CHECKING, 1, -23 / 4, [⟨1, ⟨2024, 3, 31⟩, -23 / 4, .FEE⟩]⟩

/-- Example: savings account with two transactions already posted on
2024-01-05. -/
def twoSameDayAccount : Account :=
  ⟨.SAVINGS, 1, 2,
    [⟨1, ⟨2024, 1, 5⟩, 1, .DEPOSIT⟩, ⟨1, ⟨2024, 1, 5⟩, 1, .DEPOSIT⟩]⟩

/-- Example: bank with one freshly opened checking account, selected. -/
def selectedZeroBank : Bank := ⟨[(1, Account.fresh .CHECKING 1)], some 1, 1⟩

/-- Example: bank with one account and no selection. -/
def noSelectionBank : Bank := ⟨[(1, Account.fresh .CHECKING 1)], none, 1⟩

theorem Date.lt_self (a : Date) : Date.lt a a = false := by
  simp [Date.lt]

theorem Date.lt_iff {a b : Date} : Date.lt a b = true ↔
    (a.year < b.year ∨ (a.year = b.year ∧
      (a.month < b.month ∨ (a.month = b.month ∧ a.day < b.day)))) := by
  simp [Date.lt]

theorem Date.lt_false_trans {a b c : Date} (h1 : Date.lt b a = false)
    (h2 : Date.lt c b = false) : Date.lt c a = false := by
  simp only [Date.lt, decide_eq_false_iff_not] at h1 h2 ⊢
  omega

theorem Date.lt_true_false {a b c : Date} (h1 : Date.lt a b = true)
    (h2 : Date.lt c b = false) : Date.lt c a = false := by
  simp only [Date.lt, decide_eq_true_eq, decide_eq_false_iff_not] at h1 h2 ⊢
  omega

/-- The running maximum computed by `get_last_transaction` is one of the
candidates and is not dated before any of them. -/
theorem Transaction.foldl_last_spec (ts : List Transaction) (t0 : Transaction) :
    (ts.foldl (fun acc u => if Date.lt acc.date u.date then u else acc) t0 = t0 ∨
      ts.foldl (fun acc u => if Date.lt acc.date u.date then u else acc) t0 ∈ ts) ∧
    Date.lt (ts.foldl (fun acc u => if Date.lt acc.date u.date then u else acc) t0).date t0.date = false ∧
    (∀ t ∈ ts, Date.lt (ts.foldl (fun acc u => if Date.lt acc.date u.date then u else acc) t0).date t.date = false) := by
  induction ts generalizing t0 with
  | nil => simp [Date.lt_self]
  | cons u rest ih =>
    simp only [List.foldl_cons]
    cases hcase : Date.lt t0.date u.date with
    | true =>
      simp only [hcase, if_true]
      rcases ih u with ⟨hmem, hacc, hall⟩
      refine ⟨?_, ?_, ?_⟩
      · rcases hmem with h1 | h1
        · right; rw [h1]; exact List.mem_cons_self u rest
        · right; exact List.mem_cons_of_mem u h1
      · exact Date.lt_true_false hcase hacc
      · intro t ht
        rcases List.mem_cons.mp ht with h1 | h1
        · rw [h1]; exact hacc
        · exact hall t h1
    | false =>
      simp only [hcase, Bool.false_eq_true, if_false]
      rcases ih t0 with ⟨hmem, hacc, hall⟩
      refine ⟨?_, hacc, ?_⟩
      · rcases hmem with h1 | h1
        · left; exact h1
        · right; exact List.mem_cons_of_mem u h1
      · intro t ht
        rcases List.mem_cons.mp ht with h1 | h1
        · rw [h1]
          exact Date.lt_false_trans hcase hacc
        · exact hall t h1

/-- The most recent transaction is an element of the history. -/
theorem Transaction.get_last_mem {ts : List Transaction} {last : Transaction}
    (h : Transaction.get_last_transaction ts = some last) : last ∈ ts := by
  cases ts with
  | nil => simp [Transaction.get_last_transaction] at h
  | cons t0 rest =>
    simp only [Transaction.get_last_transaction, Option.some.injEq] at h
    rcases (Transaction.foldl_last_spec rest t0).1 with h1 | h1
    · rw [← h, h1]; exact List.mem_cons_self t0 rest
    · rw [← h]; exact List.mem_cons_of_mem t0 h1

/-- The most recent transaction is not dated before any history entry. -/
theorem Transaction.get_last_ge {ts : List Transaction} {last : Transaction}
    (h : Transaction.get_last_transaction ts = some last) :
    ∀ t ∈ ts, Date.lt last.date t.date = false := by
  cases ts with
  | nil => simp [Transaction.get_last_transaction] at h
  | cons t0 rest =>
    simp only [Transaction.get_last_transaction, Option.some.injEq] at h
    rcases Transaction.foldl_last_spec rest t0 with ⟨_, hacc, hall⟩
    intro t ht
    rcases List.mem_cons.mp ht with h1 | h1
    · rw [h1, ← h]; exact hacc
    · rw [← h]; exact hall t h1

/-- `validate_transaction` accepts exactly when the candidate is not dated
strictly before any history entry. -/
theorem Transaction.validate_none_iff (ts : List Transaction) (nt : Transaction) :
    Transaction.validate_transaction ts nt = none ↔
      ∀ t ∈ ts, Date.lt nt.date t.date = false := by
  constructor
  · intro h t ht
    unfold Transaction.validate_transaction at h
    cases hlast : Transaction.get_last_transaction ts with
    | none =>
      cases ts with
      | nil => simp at ht
      | cons t0 rest => simp [Transaction.get_last_transaction] at hlast
    | some last =>
      rw [hlast] at h
      cases hd : Date.lt nt.date last.date with
      | true =>
        simp only [hd, if_true] at h
        exact absurd h (by simp)
      | false => exact Date.lt_false_trans (Transaction.get_last_ge hlast t ht) hd
  · intro h
    unfold Transaction.validate_transaction
    cases hlast : Transaction.get_last_transaction ts with
    | none => rfl
    | some last =>
      simp only [h last (Transaction.get_last_mem hlast), Bool.false_eq_true, if_false]

/-- Any error from `validate_transaction` is an ordering
`TransactionSequenceError` (never the duplicate-close kind). -/
theorem Transaction.validate_some_form {ts : List Transaction} {nt : Transaction} {e : Err}
    (h : Transaction.validate_transaction ts nt = some e) :
    ∃ d, e = .transactionSequence d .sequence := by
  unfold Transaction.validate_transaction at h
  cases hlast : Transaction.get_last_transaction ts with
  | none => rw [hlast] at h; exact absurd h (by simp)
  | some last =>
    rw [hlast] at h
    cases hd : Date.lt nt.date last.date with
    | true =>
      simp only [hd, if_true] at h
      exact ⟨last.date, by injection h with h1; exact h1.symm⟩
    | false =>
      simp only [hd, Bool.false_eq_true, if_false] at h
      exact absurd h (by simp)

/-- The base-class `add_transaction` leaves the account untouched whenever
it raises, and never raises `OverdrawError`. -/
theorem Account.add_transaction_raise_spec (a : Account) (amount : ℚ) (date : Date)
    (ty : TransactionType) :
    ((Account.add_transaction a amount date ty).1.isSome →
      (Account.add_transaction a amount date ty).2 = a) ∧
    (Account.add_transaction a amount date ty).1 ≠ some .overdraw := by
  unfold Account.add_transaction
  cases hv : Transaction.validate_transaction a.transactions
      ⟨a.account_number, date, amount, ty⟩ with
  | none => simp [hv]
  | some e =>
    rcases Transaction.validate_some_form hv with ⟨d, rfl⟩
    simp [hv]

/-- With the bypass flag set, both subclasses' `add_transaction` reduce to
the base-class behaviour. -/
theorem Account.dispatch_bypass (a : Account) (amount : ℚ) (date : Date)
    (ty : TransactionType) :
    Account.dispatch_add_transaction a amount date ty true =
      Account.add_transaction a amount date ty := by
  unfold Account.dispatch_add_transaction
  cases a.account_type with
  | CHECKING => simp [CheckingAccount.add_transaction]
  | SAVINGS => simp [SavingsAccount.add_transaction]

/-- After appending an accepted transaction, a further candidate with the
same date still passes the sequence rule. -/
theorem Transaction.validate_append_eq_date {ts : List Transaction} {x nt : Transaction}
    (h : Transaction.validate_transaction ts x = none) (hd : nt.date = x.date) :
    Transaction.validate_transaction (ts ++ [x]) nt = none := by
  rw [Transaction.validate_none_iff] at h ⊢
  intro t ht
  rcases List.mem_append.mp ht with h1 | h1
  · rw [hd]; exact h t h1
  · simp only [List.mem_singleton] at h1
    rw [h1, hd]; exact Date.lt_self x.date

/-- Characterization of a successful base-class `add_transaction`. -/
theorem Account.add_transaction_success {a : Account} {amount : ℚ} {date : Date}
    {ty : TransactionType} (h : (Account.add_transaction a amount date ty).1 = none) :
    (Account.add_transaction a amount date ty).2 =
      Account.update_balance
        { a with transactions := a.transactions ++ [⟨a.account_number, date, amount, ty⟩] } ∧
    Transaction.validate_transaction a.transactions ⟨a.account_number, date, amount, ty⟩ = none := by
  unfold Account.add_transaction at h ⊢
  simp only [] at h ⊢
  cases hv : Transaction.validate_transaction a.transactions
      ⟨a.account_number, date, amount, ty⟩ with
  | none => simp [hv]
  | some e => rw [hv] at h; exact absurd h (by simp)

/-- `_update_balance` only rewrites the balance field. -/
theorem Account.update_balance_fields (a : Account) :
    (Account.update_balance a).transactions = a.transactions ∧
    (Account.update_balance a).account_type = a.account_type ∧
    (Account.update_balance a).account_number = a.account_number := by
  simp [Account.update_balance]

/-- `_update_balance` establishes the balance invariant. -/
theorem Account.update_balance_inv (a : Account) :
    Account.BalanceInv (Account.update_balance a) := by
  simp [Account.BalanceInv, Account.update_balance]

/-- `apply_interest_and_fees` past the duplicate-close check: post interest
through the bypass path, run the fee hook, recompute the balance. -/
theorem Account.apply_steps (a : Account) (today : Date)
    (hdup : a.transactions.any (fun t =>
      (decide (t.transaction_type = .INTEREST) || decide (t.transaction_type = .FEE)) &&
      decide (t.date.month = (Account.fee_date a today).month)) = false) :
    Account.apply_interest_and_fees a today =
      (match Account.add_transaction a
          (a.balance * Account.INTEREST_RATES a.account_type / 100)
          (Account.fee_date a today) .INTEREST with
      | (some e, a1) => (some e, a1)
      | (none, a1) =>
        match Account.apply_account_fees a1 (Account.fee_date a today) with
        | (some e, a2) => (some e, a2)
        | (none, a2) => (none, Account.update_balance a2)) := by
  unfold Account.apply_interest_and_fees
  simp only [Account.dispatch_bypass, hdup, Bool.false_eq_true, if_false]

/-- `apply_interest_and_fees` rejected at the duplicate-close check. -/
theorem Account.apply_dup (a : Account) (today : Date)
    (hdup : a.transactions.any (fun t =>
      (decide (t.transaction_type = .INTEREST) || decide (t.transaction_type = .FEE)) &&
      decide (t.date.month = (Account.fee_date a today).month)) = true) :
    Account.apply_interest_and_fees a today =
      (some (.transactionSequence (Account.fee_date a today) .interest), a) := by
  unfold Account.apply_interest_and_fees
  simp only [hdup, if_true]

/-- Once the interest posting has been accepted, the conditional fee
posting of the fee hook is always accepted as well (it carries the same
date), so the whole procedure succeeds. -/
theorem Account.apply_after_interest (a : Account) (today : Date)
    (hdup : a.transactions.any (fun t =>
      (decide (t.transaction_type = .INTEREST) || decide (t.transaction_type = .FEE)) &&
      decide (t.date.month = (Account.fee_date a today).month)) = false)
    (hint : (Account.add_transaction a
      (a.balance * Account.INTEREST_RATES a.account_type / 100)
      (Account.fee_date a today) .INTEREST).1 = none) :
    (Account.apply_interest_and_fees a today).1 = none ∧
    (Account.apply_interest_and_fees a today).2 =
      Account.update_balance
        (Account.apply_account_fees
          (Account.add_transaction a
            (a.balance * Account.INTEREST_RATES a.account_type / 100)
            (Account.fee_date a today) .INTEREST).2
          (Account.fee_date a today)).2 ∧
    (Account.apply_account_fees
      (Account.add_transaction a
        (a.balance * Account.INTEREST_RATES a.account_type / 100)
        (Account.fee_date a today) .INTEREST).2
      (Account.fee_date a today)).1 = none := by
  rw [Account.apply_steps a today hdup]
  rcases hstep : Account.add_transaction a
      (a.balance * Account.INTEREST_RATES a.account_type / 100)
      (Account.fee_date a today) .INTEREST with ⟨e1, a1⟩
  rw [hstep] at hint
  simp only at hint
  subst hint
  rcases @Account.add_transaction_success a
      (a.balance * Account.INTEREST_RATES a.account_type / 100)
      (Account.fee_date a today) .INTEREST
      (by rw [hstep]) with ⟨ha1, hval⟩
  rw [hstep] at ha1
  simp only at ha1
  have hfees : (Account.apply_account_fees a1 (Account.fee_date a today)).1 = none := by
    unfold Account.apply_account_fees
    cases hty : a1.account_type with
    | SAVINGS => simp
    | CHECKING =>
      simp only
      by_cases hb : a1.balance < CheckingAccount.MIN_BALANCE_FOR_FEE
      · rw [if_pos (by exact_mod_cast decide_eq_true hb)]
        unfold CheckingAccount.add_transaction
        simp only [Bool.not_true, Bool.false_and, Bool.false_eq_true, if_false]
        have hv2 : Transaction.validate_transaction a1.transactions
            ⟨a1.account_number, Account.fee_date a today,
              CheckingAccount.OVERDRAFT_FEE, .FEE⟩ = none := by
          have htr : a1.transactions = a.transactions ++
              [⟨a.account_number, Account.fee_date a today,
                a.balance * Account.INTEREST_RATES a.account_type / 100, .INTEREST⟩] := by
            rw [ha1]; simp [Account.update_balance]
          rw [htr]
          exact Transaction.validate_append_eq_date hval rfl
        unfold Account.add_transaction
        simp only []
        rw [hv2]
      · rw [if_neg (by simpa using hb)]
  rcases hfr : Account.apply_account_fees a1 (Account.fee_date a today) with ⟨e2, a2⟩
  rw [hfr] at hfees
  simp only at hfees
  subst hfees
  simp [hfr]

/-- Whenever `apply_interest_and_fees` raises, the account is exactly as it
was before the call: the only raise points are the duplicate-close check and
the interest posting, both of which precede any mutation. -/
theorem Account.apply_raise_spec (a : Account) (today : Date)
    (h : (Account.apply_interest_and_fees a today).1.isSome) :
    (Account.apply_interest_and_fees a today).2 = a := by
  cases hdup : a.transactions.any (fun t =>
      (decide (t.transaction_type = .INTEREST) || decide (t.transaction_type = .FEE)) &&
      decide (t.date.month = (Account.fee_date a today).month)) with
  | true => rw [Account.apply_dup a today hdup]
  | false =>
    cases hint : (Account.add_transaction a
        (a.balance * Account.INTEREST_RATES a.account_type / 100)
        (Account.fee_date a today) .INTEREST).1 with
    | none =>
      rcases Account.apply_after_interest a today hdup hint with ⟨h1, _, _⟩
      rw [h1] at h
      exact absurd h (by simp)
    | some e =>
      rw [Account.apply_steps a today hdup]
      rcases hstep : Account.add_transaction a
          (a.balance * Account.INTEREST_RATES a.account_type / 100)
          (Account.fee_date a today) .INTEREST with ⟨e1, a1⟩
      rw [hstep] at hint
      simp only at hint
      subst hint
      have ha1 : a1 = a := by
        have := (Account.add_transaction_raise_spec a
          (a.balance * Account.INTEREST_RATES a.account_type / 100)
          (Account.fee_date a today) .INTEREST).1
        rw [hstep] at this
        exact this (by simp)
      simp [ha1]

/-- A successful base-class `add_transaction` establishes the invariant. -/
theorem Account.base_add_success_inv (a : Account) (amount : ℚ) (date : Date)
    (ty : TransactionType) (h : (Account.add_transaction a amount date ty).1 = none) :
    Account.BalanceInv (Account.add_transaction a amount date ty).2 := by
  rw [(Account.add_transaction_success h).1]
  exact Account.update_balance_inv _

/-- A successful `CheckingAccount.add_transaction` establishes the
invariant. -/
theorem CheckingAccount.chk_add_success_inv (a : Account) (amount : ℚ) (date : Date)
    (ty : TransactionType) (bl : Bool)
    (h : (CheckingAccount.add_transaction a amount date ty bl).1 = none) :
    Account.BalanceInv (CheckingAccount.add_transaction a amount date ty bl).2 := by
  unfold CheckingAccount.add_transaction at h ⊢
  by_cases hc : (!bl && decide (a.balance + amount < 0) &&
      decide (ty ≠ TransactionType.DEPOSIT)) = true
  · rw [if_pos hc] at h; exact absurd h (by simp)
  · rw [if_neg hc] at h ⊢
    exact Account.base_add_success_inv a amount date ty h

/-- A successful `SavingsAccount.add_transaction` establishes the
invariant. -/
theorem SavingsAccount.sav_add_success_inv (a : Account) (amount : ℚ) (date : Date)
    (ty : TransactionType) (bl : Bool)
    (h : (SavingsAccount.add_transaction a amount date ty bl).1 = none) :
    Account.BalanceInv (SavingsAccount.add_transaction a amount date ty bl).2 := by
  unfold SavingsAccount.add_transaction at h ⊢
  by_cases hc : (!bl && decide (a.balance + amount < 0) &&
      decide (ty ≠ TransactionType.DEPOSIT)) = true
  · rw [if_pos hc] at h; exact absurd h (by simp)
  · rw [if_neg hc] at h ⊢
    by_cases hl : (!bl && !SavingsAccount.can_add_transaction a date) = true
    · rw [if_pos hl] at h; exact absurd h (by simp)
    · rw [if_neg hl] at h ⊢
      exact Account.base_add_success_inv a amount date ty h

/-- Every successful account operation leaves the balance equal to the
exact sum of the amounts in the history (the operation always finishes by
recomputing the balance as that sum). -/
theorem AccountOp.run_success_inv (op : AccountOp) (a : Account)
    (h : (op.run a).1 = none) : Account.BalanceInv (op.run a).2 := by
  cases op with
  | add amount date ty =>
    simp only [AccountOp.run] at h ⊢
    unfold Account.dispatch_add_transaction at h ⊢
    cases hat : a.account_type with
    | CHECKING =>
      simp only [hat] at h ⊢
      exact CheckingAccount.chk_add_success_inv a amount date ty false h
    | SAVINGS =>
      simp only [hat] at h ⊢
      exact SavingsAccount.sav_add_success_inv a amount date ty false h
  | applyInterestAndFees today =>
    simp only [AccountOp.run] at h ⊢
    cases hdup : a.transactions.any (fun t =>
        (decide (t.transaction_type = .INTEREST) || decide (t.transaction_type = .FEE)) &&
        decide (t.date.month = (Account.fee_date a today).month)) with
    | true => rw [Account.apply_dup a today hdup] at h; exact absurd h (by simp)
    | false =>
      cases hint : (Account.add_transaction a
          (a.balance * Account.INTEREST_RATES a.account_type / 100)
          (Account.fee_date a today) .INTEREST).1 with
      | none =>
        rcases Account.apply_after_interest a today hdup hint with ⟨_, h2, _⟩
        rw [h2]
        exact Account.update_balance_inv _
      | some e =>
        rw [Account.apply_steps a today hdup] at h
        rcases hstep : Account.add_transaction a
            (a.balance * Account.INTEREST_RATES a.account_type / 100)
            (Account.fee_date a today) .INTEREST with ⟨e1, a1⟩
        rw [hstep] at h hint
        simp only at hint
        subst hint
        exact absurd h (by simp)

/-- The balance invariant after a whole run of successful operations. -/
theorem AccountOp.runAll_inv (ops : List AccountOp) (a0 : Account)
    (h0 : Account.BalanceInv a0) :
    ∀ a, AccountOp.runAll ops a0 = some a → Account.BalanceInv a := by
  induction ops generalizing a0 with
  | nil =>
    intro a h
    simp only [AccountOp.runAll, Option.some.injEq] at h
    rw [← h]; exact h0
  | cons op rest ih =>
    intro a h
    unfold AccountOp.runAll at h
    rcases hr : op.run a0 with ⟨e1, a1⟩
    rw [hr] at h
    cases e1 with
    | some e => simp at h
    | none =>
      simp only at h
      have inv1 : Account.BalanceInv a1 := by
        have := AccountOp.run_success_inv op a0 (by rw [hr])
        rw [hr] at this
        exact this
      exact ih a1 inv1 a h

/-- `CheckingAccount.add_transaction` leaves the account untouched whenever
it raises. -/
theorem CheckingAccount.chk_add_raise_spec (a : Account) (amount : ℚ) (date : Date)
    (ty : TransactionType) (bl : Bool)
    (h : (CheckingAccount.add_transaction a amount date ty bl).1.isSome) :
    (CheckingAccount.add_transaction a amount date ty bl).2 = a := by
  unfold CheckingAccount.add_transaction at h ⊢
  by_cases hc : (!bl && decide (a.balance + amount < 0) &&
      decide (ty ≠ TransactionType.DEPOSIT)) = true
  · rw [if_pos hc]
  · rw [if_neg hc] at h ⊢
    exact (Account.add_transaction_raise_spec a amount date ty).1 h

/-- `SavingsAccount.add_transaction` leaves the account untouched whenever
it raises. -/
theorem SavingsAccount.sav_add_raise_spec (a : Account) (amount : ℚ) (date : Date)
    (ty : TransactionType) (bl : Bool)
    (h : (SavingsAccount.add_transaction a amount date ty bl).1.isSome) :
    (SavingsAccount.add_transaction a amount date ty bl).2 = a := by
  unfold SavingsAccount.add_transaction at h ⊢
  by_cases hc : (!bl && decide (a.balance + amount < 0) &&
      decide (ty ≠ TransactionType.DEPOSIT)) = true
  · rw [if_pos hc]
  · rw [if_neg hc] at h ⊢
    by_cases hl : (!bl && !SavingsAccount.can_add_transaction a date) = true
    · rw [if_pos hl]
    · rw [if_neg hl] at h ⊢
      exact (Account.add_transaction_raise_spec a amount date ty).1 h

/-- C4: for a non-empty history the sequence check rejects a candidate
dated strictly before the maximal date in the history, with a
`TransactionSequenceError` carrying that maximal date, and accepts a
candidate dated at or after the maximal date; for an empty history every
candidate is accepted. -/
theorem claim_C4_sequence_rule (ts : List Transaction) (nt : Transaction) :
    (ts = [] → Transaction.validate_transaction ts nt = none) ∧
    (∀ last, Transaction.get_last_transaction ts = some last →
      (∀ t ∈ ts, Date.lt last.date t.date = false) ∧
      (Date.lt nt.date last.date = true →
        Transaction.validate_transaction ts nt =
          some (.transactionSequence last.date .sequence)) ∧
      (Date.lt nt.date last.date = false →
        Transaction.validate_transaction ts nt = none)) := by
  constructor
  · intro h
    subst h
    rfl
  · intro last hlast
    refine ⟨Transaction.get_last_ge hlast, ?_, ?_⟩
    · intro hd
      unfold Transaction.validate_transaction
      rw [hlast]
      simp [hd]
    · intro hd
      unfold Transaction.validate_transaction
      rw [hlast]
      simp [hd]

/-- C4 witness: with a transaction dated 2024-03-15 posted, a candidate
dated 2024-03-10 is rejected carrying 2024-03-15, while candidates dated
2024-03-15 and 2024-03-16 pass. -/
theorem claim_C4_sequence_rule_witness :
    Transaction.validate_transaction [⟨1, ⟨2024, 3, 15⟩, 10, .DEPOSIT⟩]
        ⟨1, ⟨2024, 3, 10⟩, 10, .DEPOSIT⟩ =
      some (.transactionSequence ⟨2024, 3, 15⟩ .sequence) ∧
    Transaction.validate_transaction [⟨1, ⟨2024, 3, 15⟩, 10, .DEPOSIT⟩]
        ⟨1, ⟨2024, 3, 16⟩, 10, .DEPOSIT⟩ = none := by
  constructor
  · exact ((claim_C4_sequence_rule [⟨1, ⟨2024, 3, 15⟩, 10, .DEPOSIT⟩]
      ⟨1, ⟨2024, 3, 10⟩, 10, .DEPOSIT⟩).2 ⟨1, ⟨2024, 3, 15⟩, 10, .DEPOSIT⟩
      (by decide)).2.1 (by decide)
  · exact ((claim_C4_sequence_rule [⟨1, ⟨2024, 3, 15⟩, 10, .DEPOSIT⟩]
      ⟨1, ⟨2024, 3, 16⟩, 10, .DEPOSIT⟩).2 ⟨1, ⟨2024, 3, 15⟩, 10, .DEPOSIT⟩
      (by decide)).2.2 (by decide)

/-- C10: a non-bypass `CheckingAccount.add_transaction` of kind Deposit is
never rejected by the overdraft check, whatever the balance; the
`OverdrawError` branch fires only for non-Deposit kinds. -/
theorem claim_C10_checking_deposit_never_overdraw (a : Account) (amount : ℚ)
    (date : Date) (ty : TransactionType) :
    (ty = .DEPOSIT →
      CheckingAccount.add_transaction a amount date ty false =
        Account.add_transaction a amount date ty ∧
      (CheckingAccount.add_transaction a amount date ty false).1 ≠ some .overdraw) ∧
    ((CheckingAccount.add_transaction a amount date ty false).1 = some .overdraw →
      ty ≠ .DEPOSIT) := by
  constructor
  · intro h
    subst h
    unfold CheckingAccount.add_transaction
    rw [if_neg (by simp)]
    exact ⟨rfl, (Account.add_transaction_raise_spec a amount date .DEPOSIT).2⟩
  · intro h hty
    subst hty
    unfold CheckingAccount.add_transaction at h
    rw [if_neg (by simp)] at h
    exact (Account.add_transaction_raise_spec a amount date .DEPOSIT).2 h

/-- C10 witness: a deposit of $1.00 into a checking account whose balance
was driven to -$5.75 by a fee is not rejected by the overdraft check. -/
theorem claim_C10_checking_deposit_never_overdraw_witness :
    CheckingAccount.add_transaction negBalanceAccount 1 ⟨2024, 3, 31⟩ .DEPOSIT false =
      Account.add_transaction negBalanceAccount 1 ⟨2024, 3, 31⟩ .DEPOSIT ∧
    (CheckingAccount.add_transaction negBalanceAccount 1 ⟨2024, 3, 31⟩ .DEPOSIT false).1 ≠
      some .overdraw :=
  (claim_C10_checking_deposit_never_overdraw negBalanceAccount 1 ⟨2024, 3, 31⟩ .DEPOSIT).1 rfl

/-- C2: whenever an account operation raises (`OverdrawError`,
`TransactionSequenceError` of either kind, or `TransactionLimitError`), the
account's transaction list and balance are unchanged; in particular, on an
account with balance $0.00 a non-bypass add of -0.01 as a withdrawal raises
`OverdrawError` and leaves the account untouched. -/
theorem claim_C2_no_mutation_on_error (a : Account) (amount : ℚ) (date : Date)
    (ty : TransactionType) (today : Date) :
    ((SavingsAccount.add_transaction a amount date ty false).1.isSome →
      (SavingsAccount.add_transaction a amount date ty false).2 = a) ∧
    ((CheckingAccount.add_transaction a amount date ty false).1.isSome →
      (CheckingAccount.add_transaction a amount date ty false).2 = a) ∧
    ((Account.apply_interest_and_fees a today).1.isSome →
      (Account.apply_interest_and_fees a today).2 = a) ∧
    (a.balance = 0 →
      SavingsAccount.add_transaction a (-(1 / 100)) date .WITHDRAWAL false =
        (some .overdraw, a) ∧
      CheckingAccount.add_transaction a (-(1 / 100)) date .WITHDRAWAL false =
        (some .overdraw, a)) := by
  refine ⟨SavingsAccount.sav_add_raise_spec a amount date ty false,
    CheckingAccount.chk_add_raise_spec a amount date ty false,
    Account.apply_raise_spec a today, ?_⟩
  intro h
  have hc : (!false && decide (a.balance + -(1 / 100) < 0) &&
      decide (TransactionType.WITHDRAWAL ≠ TransactionType.DEPOSIT)) = true := by
    rw [h]; norm_num; decide
  constructor
  · unfold SavingsAccount.add_transaction
    rw [if_pos hc]
  · unfold CheckingAccount.add_transaction
    rw [if_pos hc]

/-- C2 witness: the concrete overdraw rejection on fresh accounts. -/
theorem claim_C2_no_mutation_on_error_witness :
    SavingsAccount.add_transaction (Account.fresh .SAVINGS 1) (-(1 / 100))
        ⟨2024, 1, 1⟩ .WITHDRAWAL false = (some .overdraw, Account.fresh .SAVINGS 1) ∧
    CheckingAccount.add_transaction (Account.fresh .SAVINGS 1) (-(1 / 100))
        ⟨2024, 1, 1⟩ .WITHDRAWAL false = (some .overdraw, Account.fresh .SAVINGS 1) :=
  (claim_C2_no_mutation_on_error (Account.fresh .SAVINGS 1) (-(1 / 100)) ⟨2024, 1, 1⟩
    .WITHDRAWAL ⟨2024, 1, 1⟩).2.2.2 rfl

/-- C1: after any sequence of successful mutating operations starting from
a freshly opened account of either kind, the balance equals the exact sum
of the amounts of all transactions in the history. -/
theorem claim_C1_balance_invariant (t : AccountType) (n : ℕ) (ops : List AccountOp)
    (a : Account) (h : AccountOp.runAll ops (Account.fresh t n) = some a) :
    a.balance = (a.transactions.map (fun tr => tr.amount)).sum :=
  AccountOp.runAll_inv ops (Account.fresh t n)
    (by simp [Account.BalanceInv, Account.fresh]) a h

/-- C1 witness: a deposit followed by a withdrawal on a fresh checking
account leaves balance 70, the sum of the recorded amounts. -/
theorem claim_C1_balance_invariant_witness :
    AccountOp.runAll [.add 100 ⟨2024, 3, 10⟩ .DEPOSIT, .add (-30) ⟨2024, 3, 12⟩ .WITHDRAWAL]
        (Account.fresh .CHECKING 1) =
      some (⟨.CHECKING, 1, 70, [⟨1, ⟨2024, 3, 10⟩, 100, .DEPOSIT⟩,
        ⟨1, ⟨2024, 3, 12⟩, -30, .WITHDRAWAL⟩]⟩ : Account) ∧
    (⟨.CHECKING, 1, 70, [⟨1, ⟨2024, 3, 10⟩, 100, .DEPOSIT⟩,
        ⟨1, ⟨2024, 3, 12⟩, -30, .WITHDRAWAL⟩]⟩ : Account).balance =
      ((⟨.CHECKING, 1, 70, [⟨1, ⟨2024, 3, 10⟩, 100, .DEPOSIT⟩,
        ⟨1, ⟨2024, 3, 12⟩, -30, .WITHDRAWAL⟩]⟩ : Account).transactions.map
          (fun tr => tr.amount)).sum := by
  have h : AccountOp.runAll
      [.add 100 ⟨2024, 3, 10⟩ .DEPOSIT, .add (-30) ⟨2024, 3, 12⟩ .WITHDRAWAL]
      (Account.fresh .CHECKING 1) =
      some (⟨.CHECKING, 1, 70, [⟨1, ⟨2024, 3, 10⟩, 100, .DEPOSIT⟩,
        ⟨1, ⟨2024, 3, 12⟩, -30, .WITHDRAWAL⟩]⟩ : Account) := by
    norm_num [AccountOp.runAll, AccountOp.run, Account.dispatch_add_transaction,
      CheckingAccount.add_transaction, Account.add_transaction,
      Transaction.validate_transaction, Transaction.get_last_transaction,
      Account.update_balance, Account.fresh, Date.lt]
  exact ⟨h, claim_C1_balance_invariant .CHECKING 1
    [.add 100 ⟨2024, 3, 10⟩ .DEPOSIT, .add (-30) ⟨2024, 3, 12⟩ .WITHDRAWAL] _ h⟩

/-- C5 (amended): for a savings account, a non-bypass `add_transaction`
first runs the overdraft check, rejecting with `OverdrawError` when
`balance + amount < 0` and the kind is not Deposit; only when that branch
does not fire does the limit check run, rejecting with the daily
`TransactionLimitError` when 2 or more transactions already share the
candidate's exact date, with the monthly one when fewer than 2 share the
date but 5 or more share the candidate's calendar year and month, and
otherwise passing through to the base-class behaviour (deposits never hit
the overdraft branch but are subject to both caps). -/
theorem claim_C5_savings_limits (a : Account) (amount : ℚ) (date : Date)
    (ty : TransactionType) :
    (a.balance + amount < 0 → ty ≠ TransactionType.DEPOSIT →
      SavingsAccount.add_transaction a amount date ty false = (some .overdraw, a)) ∧
    (¬(a.balance + amount < 0 ∧ ty ≠ TransactionType.DEPOSIT) →
      (a.transactions.countP (fun t => decide (t.date = date)) ≥ 2 →
        SavingsAccount.add_transaction a amount date ty false =
          (some (.transactionLimit .daily), a)) ∧
      (a.transactions.countP (fun t => decide (t.date = date)) < 2 →
        a.transactions.countP (fun t => decide (t.date.month = date.month) &&
          decide (t.date.year = date.year)) ≥ 5 →
        SavingsAccount.add_transaction a amount date ty false =
          (some (.transactionLimit .monthly), a)) ∧
      (a.transactions.countP (fun t => decide (t.date = date)) < 2 →
        a.transactions.countP (fun t => decide (t.date.month = date.month) &&
          decide (t.date.year = date.year)) < 5 →
        SavingsAccount.add_transaction a amount date ty false =
          Account.add_transaction a amount date ty)) := by
  constructor
  · intro h1 h2
    unfold SavingsAccount.add_transaction
    rw [if_pos (by
      simp only [Bool.not_false, Bool.true_and, Bool.and_eq_true, decide_eq_true_eq]
      exact ⟨h1, h2⟩)]
  intro hnoov
  have hc : (!false && decide (a.balance + amount < 0) &&
      decide (ty ≠ TransactionType.DEPOSIT)) = false := by
    by_contra hcc
    rw [Bool.not_eq_false] at hcc
    simp only [Bool.not_false, Bool.true_and, Bool.and_eq_true, decide_eq_true_eq] at hcc
    exact hnoov hcc
  refine ⟨?_, ?_, ?_⟩
  · intro hd
    have hdd : decide (a.transactions.countP (fun t => decide (t.date = date)) <
        SavingsAccount.MAX_DAILY_TRANSACTIONS) = false := by
      simp only [decide_eq_false_iff_not, not_lt]
      simpa [SavingsAccount.MAX_DAILY_TRANSACTIONS] using hd
    have hcan : SavingsAccount.can_add_transaction a date = false := by
      unfold SavingsAccount.can_add_transaction
      simp only [hdd, Bool.false_and]
    unfold SavingsAccount.add_transaction
    rw [if_neg (by rw [hc]; simp)]
    rw [if_pos (by rw [hcan]; simp)]
    rw [if_pos (by simpa [SavingsAccount.MAX_DAILY_TRANSACTIONS] using hd)]
  · intro hd hm
    have hmm : decide (a.transactions.countP (fun t => decide (t.date.month = date.month) &&
        decide (t.date.year = date.year)) < SavingsAccount.MAX_MONTHLY_TRANSACTIONS) = false := by
      simp only [decide_eq_false_iff_not, not_lt]
      simpa [SavingsAccount.MAX_MONTHLY_TRANSACTIONS] using hm
    have hcan : SavingsAccount.can_add_transaction a date = false := by
      unfold SavingsAccount.can_add_transaction
      simp only [hmm, Bool.and_false]
    unfold SavingsAccount.add_transaction
    rw [if_neg (by rw [hc]; simp)]
    rw [if_pos (by rw [hcan]; simp)]
    rw [if_neg (by simp only [ge_iff_le, not_le, SavingsAccount.MAX_DAILY_TRANSACTIONS]; omega)]
  · intro hd hm
    have hcan : SavingsAccount.can_add_transaction a date = true := by
      unfold SavingsAccount.can_add_transaction
      simp only [Bool.and_eq_true, decide_eq_true_eq]
      exact ⟨by simpa [SavingsAccount.MAX_DAILY_TRANSACTIONS] using hd,
        by simpa [SavingsAccount.MAX_MONTHLY_TRANSACTIONS] using hm⟩
    unfold SavingsAccount.add_transaction
    rw [if_neg (by rw [hc]; simp)]
    rw [if_neg (by rw [hcan]; simp)]

/-- C5 witness: a third deposit on a day that already has two transactions
is rejected with the daily limit error. -/
theorem claim_C5_savings_limits_witness :
    SavingsAccount.add_transaction twoSameDayAccount 1 ⟨2024, 1, 5⟩ .DEPOSIT false =
      (some (.transactionLimit .daily), twoSameDayAccount) :=
  ((claim_C5_savings_limits twoSameDayAccount 1 ⟨2024, 1, 5⟩ .DEPOSIT).2
    (by simp)).1 (by decide)

/-- C5 counterexample: on a savings account with balance $2.00 and two
transactions already posted on 2024-01-05, a withdrawal of -$3.00 dated
2024-01-05 has a daily count at the cap, yet the code raises
`OverdrawError`, not the `TransactionLimitError(daily)` the claim
promises — the overdraft check runs before the limit check. -/
theorem claim_C5_counterexample :
    twoSameDayAccount.transactions.countP
        (fun t => decide (t.date = (⟨2024, 1, 5⟩ : Date))) ≥ 2 ∧
    SavingsAccount.add_transaction twoSameDayAccount (-3) ⟨2024, 1, 5⟩ .WITHDRAWAL false =
      (some .overdraw, twoSameDayAccount) ∧
    Err.overdraw ≠ Err.transactionLimit .daily := by
  refine ⟨by decide, ?_, by decide⟩
  norm_num [SavingsAccount.add_transaction, twoSameDayAccount]
  intro h
  exact absurd h (by decide)

/-- Any error escaping the base-class `add_transaction` is an ordering
`TransactionSequenceError`. -/
theorem Account.add_transaction_error_form {a : Account} {amount : ℚ} {date : Date}
    {ty : TransactionType} {e : Err}
    (h : (Account.add_transaction a amount date ty).1 = some e) :
    ∃ d, e = .transactionSequence d .sequence := by
  unfold Account.add_transaction at h
  simp only [] at h
  cases hv : Transaction.validate_transaction a.transactions
      ⟨a.account_number, date, amount, ty⟩ with
  | none => rw [hv] at h; simp at h
  | some e2 =>
    rw [hv] at h
    simp only [Option.some.injEq] at h
    subst h
    exact Transaction.validate_some_form hv

/-- C3 (amended): `apply_interest_and_fees` rejects with the
duplicate-close `TransactionSequenceError` carrying the fee date if and
only if some existing transaction has kind Interest or Fee and is dated in
a month with the same month number as the fee date — the year is ignored;
on that rejection nothing is posted. Hence a second close in the same month
fails, and a close in the same month number of a different year is blocked
as well. -/
theorem claim_C3_duplicate_close_month_only (a : Account) (today : Date) :
    ((Account.apply_interest_and_fees a today).1 =
        some (.transactionSequence (Account.fee_date a today) .interest) ↔
      ∃ t ∈ a.transactions,
        (t.transaction_type = .INTEREST ∨ t.transaction_type = .FEE) ∧
        t.date.month = (Account.fee_date a today).month) ∧
    ((Account.apply_interest_and_fees a today).1 =
        some (.transactionSequence (Account.fee_date a today) .interest) →
      (Account.apply_interest_and_fees a today).2 = a) := by
  cases hdup : a.transactions.any (fun t =>
      (decide (t.transaction_type = .INTEREST) || decide (t.transaction_type = .FEE)) &&
      decide (t.date.month = (Account.fee_date a today).month)) with
  | true =>
    rw [Account.apply_dup a today hdup]
    refine ⟨⟨fun _ => ?_, fun _ => rfl⟩, fun _ => rfl⟩
    rcases List.any_eq_true.mp hdup with ⟨t, ht, hp⟩
    simp only [Bool.and_eq_true, Bool.or_eq_true, decide_eq_true_eq] at hp
    exact ⟨t, ht, hp.1, hp.2⟩
  | false =>
    have hne : ¬∃ t ∈ a.transactions,
        (t.transaction_type = .INTEREST ∨ t.transaction_type = .FEE) ∧
        t.date.month = (Account.fee_date a today).month := by
      rw [List.any_eq_false] at hdup
      rintro ⟨t, ht, h1, h2⟩
      have := hdup t ht
      simp only [Bool.and_eq_true, Bool.or_eq_true, decide_eq_true_eq] at this
      exact this ⟨h1, h2⟩
    have hfst : (Account.apply_interest_and_fees a today).1 ≠
        some (.transactionSequence (Account.fee_date a today) .interest) := by
      cases hint : (Account.add_transaction a
          (a.balance * Account.INTEREST_RATES a.account_type / 100)
          (Account.fee_date a today) .INTEREST).1 with
      | none =>
        rw [(Account.apply_after_interest a today hdup hint).1]
        simp
      | some e =>
        rcases Account.add_transaction_error_form hint with ⟨d, rfl⟩
        rw [Account.apply_steps a today hdup]
        rcases hstep : Account.add_transaction a
            (a.balance * Account.INTEREST_RATES a.account_type / 100)
            (Account.fee_date a today) .INTEREST with ⟨e1, a1⟩
        rw [hstep] at hint
        simp only at hint
        subst hint
        simp
    exact ⟨⟨fun hh => absurd hh hfst, fun hh => absurd hh hne⟩, fun hh => absurd hh hfst⟩

/-- C3 counterexample: an Interest transaction from March 2023 blocks a
monthly close whose fee date falls in March 2024, although no transaction
lies in the same calendar month (year and month) as the fee date — the
claim's `same year and same month` reading is false on the code. -/
theorem claim_C3_counterexample :
    crossYearAccount.transactions.all (fun t =>
      !((decide (t.transaction_type = .INTEREST) || decide (t.transaction_type = .FEE)) &&
        (decide (t.date.year = (Account.fee_date crossYearAccount ⟨2024, 4, 1⟩).year) &&
         decide (t.date.month = (Account.fee_date crossYearAccount ⟨2024, 4, 1⟩).month)))) = true ∧
    (Account.apply_interest_and_fees crossYearAccount ⟨2024, 4, 1⟩).1 =
      some (.transactionSequence ⟨2024, 3, 31⟩ .interest) := by
  constructor
  · decide
  · decide

/-- C3 witness: the amended rule applied to the cross-year account — the
close is rejected with the duplicate-close error and nothing is posted. -/
theorem claim_C3_duplicate_close_month_only_witness :
    (Account.apply_interest_and_fees crossYearAccount ⟨2024, 4, 1⟩).1 =
      some (.transactionSequence (Account.fee_date crossYearAccount ⟨2024, 4, 1⟩) .interest) ∧
    (Account.apply_interest_and_fees crossYearAccount ⟨2024, 4, 1⟩).2 = crossYearAccount := by
  have h := claim_C3_duplicate_close_month_only crossYearAccount ⟨2024, 4, 1⟩
  have h1 : (Account.apply_interest_and_fees crossYearAccount ⟨2024, 4, 1⟩).1 =
      some (.transactionSequence (Account.fee_date crossYearAccount ⟨2024, 4, 1⟩) .interest) :=
    h.1.mpr ⟨⟨1, ⟨2023, 3, 31⟩, 1 / 2, .INTEREST⟩, List.mem_cons_self _ _,
      Or.inl rfl, by decide⟩
  exact ⟨h1, h.2 h1⟩

/-- C7: during a monthly close on a checking account (duplicate-close check
passed, interest posting accepted), exactly one Fee transaction of
`OVERDRAFT_FEE` dated with the fee date is appended when the balance after
the interest posting is strictly below $100.00, and no Fee transaction is
appended when that balance is $100.00 or more; `OVERDRAFT_FEE` is exactly
-5.75. -/
theorem claim_C7_checking_low_balance_fee (a : Account) (today : Date)
    (hty : a.account_type = .CHECKING)
    (hdup : a.transactions.any (fun t =>
      (decide (t.transaction_type = .INTEREST) || decide (t.transaction_type = .FEE)) &&
      decide (t.date.month = (Account.fee_date a today).month)) = false)
    (hint : (Account.add_transaction a
      (a.balance * Account.INTEREST_RATES a.account_type / 100)
      (Account.fee_date a today) .INTEREST).1 = none) :
    CheckingAccount.OVERDRAFT_FEE = -5.75 ∧
    ((Account.add_transaction a
        (a.balance * Account.INTEREST_RATES a.account_type / 100)
        (Account.fee_date a today) .INTEREST).2.balance < 100 →
      (Account.apply_interest_and_fees a today).1 = none ∧
      (Account.apply_interest_and_fees a today).2.transactions =
        (Account.add_transaction a
          (a.balance * Account.INTEREST_RATES a.account_type / 100)
          (Account.fee_date a today) .INTEREST).2.transactions ++
          [⟨a.account_number, Account.fee_date a today, CheckingAccount.OVERDRAFT_FEE, .FEE⟩]) ∧
    (100 ≤ (Account.add_transaction a
        (a.balance * Account.INTEREST_RATES a.account_type / 100)
        (Account.fee_date a today) .INTEREST).2.balance →
      (Account.apply_interest_and_fees a today).1 = none ∧
      (Account.apply_interest_and_fees a today).2.transactions =
        (Account.add_transaction a
          (a.balance * Account.INTEREST_RATES a.account_type / 100)
          (Account.fee_date a today) .INTEREST).2.transactions) := by
  obtain ⟨h1, h2, h3⟩ := Account.apply_after_interest a today hdup hint
  have hsucc := Account.add_transaction_success hint
  have hty1 : (Account.add_transaction a
      (a.balance * Account.INTEREST_RATES a.account_type / 100)
      (Account.fee_date a today) .INTEREST).2.account_type = .CHECKING := by
    rw [hsucc.1, ← hty]
    simp [Account.update_balance]
  have hnum1 : (Account.add_transaction a
      (a.balance * Account.INTEREST_RATES a.account_type / 100)
      (Account.fee_date a today) .INTEREST).2.account_number = a.account_number := by
    rw [hsucc.1]
    simp [Account.update_balance]
  refine ⟨by norm_num [CheckingAccount.OVERDRAFT_FEE], ?_, ?_⟩
  · intro hb
    refine ⟨h1, ?_⟩
    have hfees_eq : Account.apply_account_fees
        (Account.add_transaction a
          (a.balance * Account.INTEREST_RATES a.account_type / 100)
          (Account.fee_date a today) .INTEREST).2 (Account.fee_date a today) =
        Account.add_transaction
          (Account.add_transaction a
            (a.balance * Account.INTEREST_RATES a.account_type / 100)
            (Account.fee_date a today) .INTEREST).2
          CheckingAccount.OVERDRAFT_FEE (Account.fee_date a today) .FEE := by
      unfold Account.apply_account_fees
      simp only [hty1]
      rw [if_pos (by
        simp only [decide_eq_true_eq, CheckingAccount.MIN_BALANCE_FOR_FEE]
        exact hb)]
      unfold CheckingAccount.add_transaction
      simp
    have h3' : (Account.add_transaction
        (Account.add_transaction a
          (a.balance * Account.INTEREST_RATES a.account_type / 100)
          (Account.fee_date a today) .INTEREST).2
        CheckingAccount.OVERDRAFT_FEE (Account.fee_date a today) .FEE).1 = none := by
      rw [← hfees_eq]
      exact h3
    have hsucc2 := Account.add_transaction_success h3'
    rw [h2, hfees_eq, hsucc2.1]
    simp [Account.update_balance, hnum1]
  · intro hb
    refine ⟨h1, ?_⟩
    have hfees_eq : Account.apply_account_fees
        (Account.add_transaction a
          (a.balance * Account.INTEREST_RATES a.account_type / 100)
          (Account.fee_date a today) .INTEREST).2 (Account.fee_date a today) =
        (none, (Account.add_transaction a
          (a.balance * Account.INTEREST_RATES a.account_type / 100)
          (Account.fee_date a today) .INTEREST).2) := by
      unfold Account.apply_account_fees
      simp only [hty1]
      rw [if_neg (by
        simp only [decide_eq_true_eq, CheckingAccount.MIN_BALANCE_FOR_FEE, not_lt]
        exact hb)]
    rw [h2, hfees_eq]
    simp [Account.update_balance]

/-- C7 witness: a checking account holding $50.00 receives the -5.75 Fee
transaction during the monthly close. -/
theorem claim_C7_checking_low_balance_fee_witness :
    (Account.apply_interest_and_fees deposit50Account ⟨2024, 5, 1⟩).1 = none ∧
    (Account.apply_interest_and_fees deposit50Account ⟨2024, 5, 1⟩).2.transactions =
      (Account.add_transaction deposit50Account
        (deposit50Account.balance * Account.INTEREST_RATES deposit50Account.account_type / 100)
        (Account.fee_date deposit50Account ⟨2024, 5, 1⟩) .INTEREST).2.transactions ++
        [⟨deposit50Account.account_number, Account.fee_date deposit50Account ⟨2024, 5, 1⟩,
          CheckingAccount.OVERDRAFT_FEE, .FEE⟩] :=
  (claim_C7_checking_low_balance_fee deposit50Account ⟨2024, 5, 1⟩ rfl (by decide)
    (by decide)).2.1
    (by norm_num [Account.add_transaction, Transaction.validate_transaction,
      Transaction.get_last_transaction, Account.update_balance, deposit50Account,
      Account.fee_date, Transaction.last_day_of_month, Date.lt,
      Account.INTEREST_RATES, Date.daysInMonth, Date.isLeapYear])

/-- C6: the monthly rates the code applies are the `Decimal` images of the
binary floats 0.08 and 0.33, not the exact decimals 0.08 and 0.33 the spec
states; on a checking account with balance $100.00 the posted interest
amount differs from `balance * (8/100) / 100`. -/
theorem claim_C6_interest_uses_float_rate :
    Account.INTEREST_RATES .CHECKING ≠ 8 / 100 ∧
    Account.INTEREST_RATES .SAVINGS ≠ 33 / 100 ∧
    Account.apply_interest_and_fees deposit100Account ⟨2024, 4, 1⟩ =
      (none, ⟨.CHECKING, 1, 100 + 5764607523034235 / 72057594037927936,
        [⟨1, ⟨2024, 3, 15⟩, 100, .DEPOSIT⟩,
         ⟨1, ⟨2024, 3, 31⟩, 5764607523034235 / 72057594037927936, .INTEREST⟩]⟩) ∧
    (5764607523034235 / 72057594037927936 : ℚ) ≠
      deposit100Account.balance * (8 / 100) / 100 := by
  refine ⟨by norm_num [Account.INTEREST_RATES], by norm_num [Account.INTEREST_RATES], ?_,
    by norm_num [deposit100Account]⟩
  norm_num [Account.apply_interest_and_fees, Account.fee_date,
    Account.dispatch_add_transaction, CheckingAccount.add_transaction,
    Account.add_transaction, Account.apply_account_fees,
    Transaction.validate_transaction, Transaction.get_last_transaction,
    Transaction.last_day_of_month, Account.update_balance, Account.INTEREST_RATES,
    CheckingAccount.MIN_BALANCE_FOR_FEE, CheckingAccount.OVERDRAFT_FEE,
    deposit100Account, Date.lt, Date.daysInMonth, Date.isLeapYear]
  exact ⟨by decide, by decide⟩

/-- C8 (amended): with an account selected, `Bank.add_transaction` infers
kind Withdrawal exactly when the amount is strictly negative and Deposit
otherwise — so an amount of exactly 0 is classified as a Deposit — and
delegates to the selected account, propagating its error unchanged. -/
theorem claim_C8_bank_kind_inference (b : Bank) (amount : ℚ) (date : Date)
    (acc : Account) (hsel : Bank.get_selected_account b = some acc) :
    Bank.add_transaction b amount date =
      ((Account.dispatch_add_transaction acc amount date
          (if decide (amount < 0) then .WITHDRAWAL else .DEPOSIT) false).1,
        Bank.set_selected_account b
          (Account.dispatch_add_transaction acc amount date
            (if decide (amount < 0) then .WITHDRAWAL else .DEPOSIT) false).2) ∧
    (amount < 0 →
      (if decide (amount < 0) then TransactionType.WITHDRAWAL else .DEPOSIT) = .WITHDRAWAL) ∧
    (0 ≤ amount →
      (if decide (amount < 0) then TransactionType.WITHDRAWAL else .DEPOSIT) = .DEPOSIT) := by
  refine ⟨?_, ?_, ?_⟩
  · unfold Bank.add_transaction
    simp only [hsel]
  · intro h
    rw [if_pos (by simpa using h)]
  · intro h
    rw [if_neg (by simpa using not_lt.mpr h)]

/-- C8 counterexample: an amount of exactly 0 is posted with kind Deposit,
not Withdrawal as the claim states. -/
theorem claim_C8_counterexample :
    Bank.add_transaction selectedZeroBank 0 ⟨2024, 1, 2⟩ =
      (none, ⟨[(1, ⟨.CHECKING, 1, 0, [⟨1, ⟨2024, 1, 2⟩, 0, .DEPOSIT⟩]⟩)], some 1, 1⟩) ∧
    TransactionType.DEPOSIT ≠ TransactionType.WITHDRAWAL := by
  constructor
  · norm_num [Bank.add_transaction, Bank.get_selected_account, Bank.set_selected_account,
      Account.dispatch_add_transaction, CheckingAccount.add_transaction,
      Account.add_transaction, Transaction.validate_transaction,
      Transaction.get_last_transaction, Account.update_balance, Account.fresh,
      selectedZeroBank, List.lookup]
  · decide

/-- C8 witness: a negative amount is delegated as a Withdrawal. -/
theorem claim_C8_bank_kind_inference_witness :
    Bank.add_transaction selectedZeroBank (-5) ⟨2024, 1, 2⟩ =
      ((Account.dispatch_add_transaction (Account.fresh .CHECKING 1) (-5) ⟨2024, 1, 2⟩
          (if decide ((-5 : ℚ) < 0) then .WITHDRAWAL else .DEPOSIT) false).1,
        Bank.set_selected_account selectedZeroBank
          (Account.dispatch_add_transaction (Account.fresh .CHECKING 1) (-5) ⟨2024, 1, 2⟩
            (if decide ((-5 : ℚ) < 0) then .WITHDRAWAL else .DEPOSIT) false).2) ∧
    (if decide ((-5 : ℚ) < 0) then TransactionType.WITHDRAWAL else .DEPOSIT) = .WITHDRAWAL := by
  have h := claim_C8_bank_kind_inference selectedZeroBank (-5) ⟨2024, 1, 2⟩
    (Account.fresh .CHECKING 1) rfl
  exact ⟨h.1, h.2.1 (by norm_num)⟩

/-- C9 (amended): with no selection, `Bank.list_transactions` and
`Bank.interest_and_fees` fail with the explicit no-account-selected
`AttributeError`, while `Bank.add_transaction` fails with the implicit
`AttributeError` raised by dereferencing `None` in its logging line; in all
three cases the bank's accounts and selection are unchanged. -/
theorem claim_C9_no_selection (b : Bank) (amount : ℚ) (date today : Date)
    (h : Bank.get_selected_account b = none) :
    Bank.add_transaction b amount date =
      (some (.attributeError .noneTypeAccountNumber), b) ∧
    Bank.list_transactions b = (some (.attributeError .requiresSelectAccount), b) ∧
    Bank.interest_and_fees b today = (some (.attributeError .requiresSelectAccount), b) := by
  refine ⟨?_, ?_, ?_⟩
  · unfold Bank.add_transaction
    simp only [h]
  · unfold Bank.list_transactions
    simp only [h]
  · unfold Bank.interest_and_fees
    simp only [h]

/-- C9 counterexample: the error `Bank.add_transaction` raises with no
selection is not the designated no-account-selected `AttributeError` that
`list_transactions` and `interest_and_fees` raise. -/
theorem claim_C9_counterexample :
    Bank.add_transaction noSelectionBank 5 ⟨2024, 1, 2⟩ =
      (some (.attributeError .noneTypeAccountNumber), noSelectionBank) ∧
    Bank.list_transactions noSelectionBank =
      (some (.attributeError .requiresSelectAccount), noSelectionBank) ∧
    AttrMsg.noneTypeAccountNumber ≠ AttrMsg.requiresSelectAccount :=
  ⟨rfl, rfl, by decide⟩

/-- C9 witness: the amended statement at a concrete bank with no
selection. -/
theorem claim_C9_no_selection_witness :
    Bank.add_transaction noSelectionBank 7 ⟨2024, 2, 2⟩ =
      (some (.attributeError .noneTypeAccountNumber), noSelectionBank) ∧
    Bank.list_transactions noSelectionBank =
      (some (.attributeError .requiresSelectAccount), noSelectionBank) ∧
    Bank.interest_and_fees noSelectionBank ⟨2024, 2, 2⟩ =
      (some (.attributeError .requiresSelectAccount), noSelectionBank) :=
  claim_C9_no_selection noSelectionBank 7 ⟨2024, 2, 2⟩ ⟨2024, 2, 2⟩ rfl
